import Mathlib

/-!
Shallow embedding of the lead-generation chatbot service
(src/chatbot/functions.py and src/chatbot/main.py).

External collaborators (the hosted assistant API, the JSON library, the
webhook HTTP client, the filesystem) are modelled as explicit parameters:
a parse function stands for json.loads on strings, a poll function stands
for the run-status retrieval, fallible oracles stand for the hosted
assistant CRUD calls, and webhook deliveries are recorded as an effect
trace.  Every Python exception path that the source catches is modelled as
an explicit alternative of the corresponding outcome type, so the Lean
functions are total exactly where the Python functions cannot raise.
-/

/-- JSON values, as produced by json.loads.  Objects keep field order,
as Python dicts do. -/
inductive Json where
  | null : Json
  | bool : Bool → Json
  | num : Int → Json
  | str : String → Json
  | arr : List Json → Json
  | obj : List (String × Json) → Json

/-- Python truthiness of a JSON-shaped value (used by the `if output:`
check in the run loop). -/
def Json.truthy : Json → Bool
  | .null => false
  | .bool b => b
  | .num n => n != 0
  | .str s => !s.isEmpty
  | .arr xs => !xs.isEmpty
  | .obj fs => !fs.isEmpty

/-- Field update on a JSON object, as Python item assignment
(replace in place when the key exists, append otherwise); `none` models
the TypeError raised when the value is not a dict. -/
def setFieldList : List (String × Json) → String → Json → List (String × Json)
  | [], k, v => [(k, v)]
  | (k1, v1) :: rest, k, v =>
      if k1 = k then (k, v) :: rest else (k1, v1) :: setFieldList rest k v

/-- info["email"] = v : succeeds only on objects. -/
def Json.setField : Json → String → Json → Option Json
  | .obj fs, k, v => some (.obj (setFieldList fs k v))
  | _, _, _ => none

/-- Field lookup on a JSON object. -/
def Json.lookupField : Json → String → Option Json
  | .obj fs, k => (fs.find? (fun p => p.1 = k)).map (fun p => p.2)
  | _, _ => none

/-- os.getenv results become JSON: None serialises to null. -/
def Json.ofOptStr : Option String → Json
  | none => .null
  | some s => .str s

/-- Result mapping returned by a tool handler:
at least success and message, data only for extract_user_info. -/
structure ToolResult where
  success : Bool
  message : String
  data : Option Json

/-- The dict a handler returns, as the JSON value json.dumps serialises. -/
def ToolResult.toJson (r : ToolResult) : Json :=
  Json.obj ([("success", Json.bool r.success), ("message", Json.str r.message)]
    ++ (match r.data with
        | some d => [("data", d)]
        | none => []))

/-- Environment of the tool handlers: json.loads on strings (none models
json.JSONDecodeError), the three relevant environment variables, and
whether a given webhook POST raises. -/
structure ToolEnv where
  parse : String → Option Json
  leadWebhook : Option String
  noleadWebhook : Option String
  emailRecipient : Option String
  postFails : String → Json → Bool

/-- Outcome of json.loads applied to a Python value decoded from JSON:
a string is parsed (JSONDecodeError on bad input); any other value makes
json.loads raise TypeError. -/
inductive LoadsOutcome where
  | ok : Json → LoadsOutcome
  | jsonDecodeError : LoadsOutcome
  | typeError : LoadsOutcome

def json_loads (parse : String → Option Json) : Json → LoadsOutcome
  | .str s =>
      match parse s with
      | some j => .ok j
      | none => .jsonDecodeError
  | _ => .typeError

/-- Observable effect of one tool-handler call: the returned mapping, the
webhook POSTs attempted (url, payload), and the log lines. -/
structure ToolEffect where
  result : ToolResult
  posts : List (String × Json)
  logs : List String

/-- functions.extract_user_info: parse the payload; on success POST it
to LEAD_WEBHOOK when configured (POST failure only logged) and return
success with the parsed data; JSONDecodeError and any other exception
are caught and return success false. -/
def extract_user_info (env : ToolEnv) (user_info : Json) : ToolEffect :=
  match json_loads env.parse user_info with
  | .ok info =>
      let sent : List (String × Json) × List String :=
        match env.leadWebhook with
        | some url =>
            if url.isEmpty then ([], [])
            else
              ([(url, info)],
               if env.postFails url info then ["Failed to send lead webhook"]
               else ["Lead webhook sent successfully"])
        | none => ([], [])
      { result := { success := true,
                    message := "User information extracted and processed successfully",
                    data := some info },
        posts := sent.1, logs := sent.2 }
  | .jsonDecodeError =>
      { result := { success := false, message := "Invalid user information format",
                    data := none },
        posts := [], logs := ["Invalid JSON in user_info"] }
  | .typeError =>
      { result := { success := false, message := "Failed to process user information",
                    data := none },
        posts := [], logs := ["Error processing user info"] }

/-- functions.contact_support: parse the payload, overwrite its email
field with EMAIL_RECIPIENT (TypeError on non-objects is caught by the
outer except), POST to NOLEAD_WEBHOOK when configured (POST failure only
logged), and return the fixed confirmation. -/
def contact_support (env : ToolEnv) (user_info : Json) : ToolEffect :=
  match json_loads env.parse user_info with
  | .ok info =>
      match info.setField "email" (Json.ofOptStr env.emailRecipient) with
      | some info2 =>
          let sent : List (String × Json) × List String :=
            match env.noleadWebhook with
            | some url =>
                if url.isEmpty then ([], [])
                else
                  ([(url, info2)],
                   if env.postFails url info2 then ["Failed to send support webhook"]
                   else ["Support webhook sent successfully"])
            | none => ([], [])
          { result := { success := true,
                        message := "Your request has been forwarded to our support team. They will contact you shortly.",
                        data := none },
            posts := sent.1, logs := sent.2 }
      | none =>
          { result := { success := false, message := "Failed to contact support",
                        data := none },
            posts := [], logs := ["Error contacting support"] }
  | .jsonDecodeError =>
      { result := { success := false, message := "Invalid user information format",
                    data := none },
        posts := [], logs := ["Invalid JSON in user_info"] }
  | .typeError =>
      { result := { success := false, message := "Failed to contact support",
                    data := none },
        posts := [], logs := ["Error contacting support"] }

/-- The FUNCTIONS registry of main.py, as a name lookup. -/
def FUNCTIONS (name : String) : Option (ToolEnv → Json → ToolEffect) :=
  if name = "extract_user_info" then some extract_user_info
  else if name = "contact_support" then some contact_support
  else none

/-- A tool call pending on a requires_action run:
tool_call.id, tool_call.function.name, tool_call.function.arguments. -/
structure ToolCall where
  id : String
  function_name : String
  arguments : String

/-- A tool output submitted back to the hosted API.  The output field
holds the JSON value whose json.dumps serialisation is submitted. -/
structure ToolOutput where
  tool_call_id : String
  output : Json

/-- Binding json.loads(arguments) to the keyword parameters of a handler
f(user_info): succeeds exactly on an object with the single key
user_info; every other shape makes f(**arguments) raise TypeError. -/
def bindUserInfo : Json → Option Json
  | .obj [(k, v)] => if k = "user_info" then some v else none
  | _ => none

/-- Processing of one tool call inside the requires_action branch of
main.chat: unknown name and argument parse or bind failure yield error
payloads; a bound call runs the handler and appends its serialised result
when truthy (the `if output:` check). -/
def processToolCall (env : ToolEnv) (tc : ToolCall) : List ToolOutput :=
  match FUNCTIONS tc.function_name with
  | none => [⟨tc.id, Json.obj [("error", Json.str "Function not found")]⟩]
  | some f =>
      match env.parse tc.arguments with
      | none => [⟨tc.id, Json.obj [("error", Json.str "Invalid function arguments")]⟩]
      | some j =>
          match bindUserInfo j with
          | none => [⟨tc.id, Json.obj [("error", Json.str "Invalid function arguments")]⟩]
          | some v =>
              let out := ToolResult.toJson (f env v).result
              if out.truthy then [⟨tc.id, out⟩] else []

/-- The full tool_outputs batch built for one requires_action poll. -/
def requiresActionOutputs (env : ToolEnv) (tcs : List ToolCall) : List ToolOutput :=
  tcs.flatMap (processToolCall env)

/-- Run statuses of the hosted API. -/
inductive RunStatus where
  | queued | in_progress | requires_action | completed | failed | expired
deriving DecidableEq

/-- The terminal-status check of main.chat:
run_status.status in ["completed", "failed", "expired"]. -/
def isTerminal : RunStatus → Bool
  | .completed => true
  | .failed => true
  | .expired => true
  | _ => false

/-- One poll observation: the retrieved status and, when it is
requires_action, the pending tool calls. -/
structure RunObs where
  status : RunStatus
  toolCalls : List ToolCall

/-- Events of one loop iteration, in order. -/
inductive LoopEvent where
  | submit : List ToolOutput → LoopEvent
  | sleep : Nat → LoopEvent

/-- Events of one non-terminal iteration of the polling loop: on
requires_action a non-empty batch is submitted, then the fixed
time.sleep(1); other non-terminal statuses only sleep. -/
def runIterEvents (env : ToolEnv) (obs : RunObs) : List LoopEvent :=
  (if obs.status = RunStatus.requires_action then
     let outs := requiresActionOutputs env obs.toolCalls
     if outs.isEmpty then [] else [LoopEvent.submit outs]
   else []) ++ [LoopEvent.sleep 1]

/-- The while True polling loop of main.chat, with fuel as an artefact of
the embedding: poll n is the status retrieved by the n-th iteration; the
result is the terminal status the loop broke on (none when the fuel ran
out with the loop still running) together with the event lists of the
completed non-terminal iterations, one list per iteration. -/
def chatLoop : Nat → ToolEnv → (Nat → RunObs) → Nat →
    Option RunStatus × List (List LoopEvent)
  | 0, _, _, _ => (none, [])
  | fuel + 1, env, poll, i =>
      let obs := poll i
      if isTerminal obs.status then (some obs.status, [])
      else
        let rest := chatLoop fuel env poll (i + 1)
        (rest.1, runIterEvents env obs :: rest.2)

/-- An HTTP response: JSON body and status code. -/
structure HttpResponse where
  body : Json
  status : Nat

/-- A message of a thread, as the hosted API returns it: role and the
text values of its content parts. -/
structure Message where
  role : String
  content : List String

/-- A /chat request body after schema validation:
thread_id optional and nullable, message required. -/
structure ChatRequest where
  thread_id : Option String
  message : String

/-- Python falsiness of data.get("thread_id"): absent, None or "". -/
def strOptFalsy : Option String → Bool
  | none => true
  | some s => s.isEmpty

/-- Hosted-API side effects of one /chat request, in order. -/
inductive ApiEffect where
  | createThread : String → ApiEffect
  | addMessage : String → String → String → ApiEffect
  | createRun : String → ApiEffect

/-- What a /chat call produced: the HTTP response (none when the fuel of
the embedded loop ran out), the hosted-API effects before the loop, and
the per-iteration loop events. -/
structure ChatOutcome where
  response : Option HttpResponse
  effects : List ApiEffect
  loopTrace : List (List LoopEvent)

/-- Environment of one /chat request: the tool environment, the id the
hosted API would give a newly created thread, the run-status oracle, and
the message list returned after the loop (newest first). -/
structure ChatEnv where
  tool : ToolEnv
  newThreadId : String
  poll : Nat → RunObs
  finalMessages : List Message

/-- main.chat after schema validation: a falsy thread_id creates a thread
and still returns 400 Missing thread_id; otherwise the message is added,
a run started, the loop polled to a terminal status, and the newest
message returned (500 when there is none). -/
def chat (env : ChatEnv) (fuel : Nat) (req : ChatRequest) : ChatOutcome :=
  if strOptFalsy req.thread_id then
    { response := some ⟨Json.obj [("error", Json.str "Missing thread_id")], 400⟩,
      effects := [ApiEffect.createThread env.newThreadId],
      loopTrace := [] }
  else
    let tid := req.thread_id.getD ""
    let effs := [ApiEffect.addMessage tid "user" req.message, ApiEffect.createRun tid]
    match chatLoop fuel env.tool env.poll 0 with
    | (none, iters) => { response := none, effects := effs, loopTrace := iters }
    | (some _, iters) =>
        let resp : HttpResponse :=
          match env.finalMessages with
          | [] => ⟨Json.obj [("error", Json.str "No response generated")], 500⟩
          | m :: _ =>
              match m.content with
              | [] => ⟨Json.obj [("error", Json.str "Internal server error")], 500⟩
              | c :: _ =>
                  ⟨Json.obj [("response", Json.str c), ("thread_id", Json.str tid)], 200⟩
        { response := some resp, effects := effs, loopTrace := iters }

/-- Python str.upper, modelled character-wise. -/
def upperStr (s : String) : String := ⟨s.data.map Char.toUpper⟩

/-- Python str.strip, modelled as dropping whitespace from both ends. -/
def stripStr (s : String) : String :=
  ⟨((s.data.dropWhile Char.isWhitespace).reverse.dropWhile Char.isWhitespace).reverse⟩

/-- Rendering of one message in functions.get_conversation: messages with
no content part are skipped, the rest become ROLE: first text value. -/
def renderMessage (m : Message) : Option String :=
  match m.content with
  | [] => none
  | c :: _ => some (upperStr m.role ++ ": " ++ c)

/-- functions.get_conversation: empty thread_id is rejected, the fetched
messages (newest first, as client.beta.threads.messages.list returns
them) are reversed to oldest first and joined; a fetch exception is
caught and rendered into the returned string. -/
def get_conversation (fetch : String → Except String (List Message))
    (thread_id : String) : String :=
  if thread_id.isEmpty then "Error: Thread ID is required"
  else
    match fetch thread_id with
    | .error e => "Error retrieving conversation: " ++ e
    | .ok messages =>
        if messages.isEmpty then "No messages found in conversation"
        else String.intercalate "\n" (messages.reverse.filterMap renderMessage)

/-- main.retrieve_conversation (GET /get-conversation/<thread_id>):
blank ids get 400, everything else a 200 envelope around
get_conversation. -/
def retrieve_conversation (fetch : String → Except String (List Message))
    (thread_id : String) : HttpResponse :=
  if thread_id.isEmpty || (stripStr thread_id).isEmpty then
    ⟨Json.obj [("error", Json.str "Invalid thread_id")], 400⟩
  else
    ⟨Json.obj [("conversation", Json.str (get_conversation fetch thread_id))], 200⟩

/-- What the filesystem holds at the instructions path, with each
exception path of the loader as an alternative: unreadable covers any
exception while opening or reading the header, pdfFile none a PdfReader
exception, textFile none a UnicodeDecodeError; the payloads are the raw
extracted text before strip. -/
inductive FsFile where
  | missing : FsFile
  | unreadable : FsFile
  | pdfFile : Option String → FsFile
  | textFile : Option String → FsFile

/-- The fixed fallback instructions string. -/
def defaultInstructions : String := "You are a helpful AI assistant."

/-- functions.load_instructions_from_file: missing path, unreadable file,
PDF or text decode failure, and whitespace-only content all fall back to
the default; otherwise the stripped content is returned. -/
def load_instructions_from_file (fs : String → FsFile)
    (instructions_file_path : String) : String :=
  match fs instructions_file_path with
  | .missing => defaultInstructions
  | .unreadable => defaultInstructions
  | .pdfFile none => defaultInstructions
  | .pdfFile (some raw) =>
      let s := stripStr raw
      if s.isEmpty then defaultInstructions else s
  | .textFile none => defaultInstructions
  | .textFile (some raw) =>
      let s := stripStr raw
      if s.isEmpty then defaultInstructions else s

/-- The assistant configuration sent to create and update calls. -/
structure AssistantConfig where
  instructions : String
  model : String

/-- Hosted assistant CRUD, each call a fallible oracle: the error payload
is the exception text. -/
structure AsstEnv where
  retrieve : String → Except String Unit
  update : String → AssistantConfig → Except String String
  create : AssistantConfig → Except String String

/-- functions.create_or_update_assistant: with a truthy id, retrieve and
update; any failure there falls through to create; a create failure is
raised to the caller. -/
def create_or_update_assistant (env : AsstEnv) (assistant_id : Option String)
    (cfg : AssistantConfig) : Except String String :=
  let updated : Option String :=
    match assistant_id with
    | none => none
    | some aid =>
        if aid.isEmpty then none
        else
          match env.retrieve aid with
          | .error _ => none
          | .ok _ =>
              match env.update aid cfg with
              | .error _ => none
              | .ok uid => some uid
  match updated with
  | some uid => .ok uid
  | none => env.create cfg

/-! ## Shared lemmas -/

lemma toJson_truthy (r : ToolResult) : (ToolResult.toJson r).truthy = true := by
  cases r.data <;> simp [ToolResult.toJson, Json.truthy]

lemma processToolCall_single (env : ToolEnv) (tc : ToolCall) :
    ∃ out : Json, processToolCall env tc = [⟨tc.id, out⟩] := by
  cases hf : FUNCTIONS tc.function_name with
  | none =>
      exact ⟨Json.obj [("error", Json.str "Function not found")],
        by simp [processToolCall, hf]⟩
  | some f =>
      cases hp : env.parse tc.arguments with
      | none =>
          exact ⟨Json.obj [("error", Json.str "Invalid function arguments")],
            by simp [processToolCall, hf, hp]⟩
      | some j =>
          cases hb : bindUserInfo j with
          | none =>
              exact ⟨Json.obj [("error", Json.str "Invalid function arguments")],
                by simp [processToolCall, hf, hp, hb]⟩
          | some v =>
              exact ⟨ToolResult.toJson (f env v).result,
                by simp [processToolCall, hf, hp, hb, toJson_truthy]⟩

lemma requiresActionOutputs_length (env : ToolEnv) (tcs : List ToolCall) :
    (requiresActionOutputs env tcs).length = tcs.length := by
  induction tcs with
  | nil => rfl
  | cons tc rest ih =>
      obtain ⟨out, hout⟩ := processToolCall_single env tc
      simp [requiresActionOutputs, List.flatMap_cons, hout] at ih ⊢
      exact ih

lemma requiresActionOutputs_ids (env : ToolEnv) (tcs : List ToolCall) :
    (requiresActionOutputs env tcs).map ToolOutput.tool_call_id = tcs.map ToolCall.id := by
  induction tcs with
  | nil => rfl
  | cons tc rest ih =>
      obtain ⟨out, hout⟩ := processToolCall_single env tc
      simp [requiresActionOutputs, List.flatMap_cons, hout] at ih ⊢
      exact ih

lemma lookup_setFieldList (fs : List (String × Json)) (k : String) (v : Json) :
    (setFieldList fs k v).find? (fun p => p.1 = k) = some (k, v) := by
  induction fs with
  | nil => simp [setFieldList]
  | cons p rest ih =>
      by_cases h : p.1 = k
      · simp [setFieldList, h]
      · simpa [setFieldList, h, List.find?_cons_of_neg] using ih

/-! ## Concrete environments used by the witnesses -/

def egToolEnv : ToolEnv where
  parse := fun s =>
    if s = "payload" then some (Json.obj [("name", Json.str "n"), ("email", Json.str "old")])
    else if s = "args" then some (Json.obj [("user_info", Json.str "payload")])
    else none
  leadWebhook := some "lead-url"
  noleadWebhook := some "support-url"
  emailRecipient := some "support-email"
  postFails := fun _ _ => true

/-! ## Claim theorems -/

/-- C4: for every input string that is not valid JSON, both tool handlers
return success false with a generic message and attempt no webhook POST;
the handlers are total (never raise), and any other modelled exception
(TypeError on a non-string payload, TypeError on item assignment for
contact_support) is likewise converted to a success-false result with no
POST. -/
theorem c4_invalid_json_handlers (env : ToolEnv) (s : String)
    (h : env.parse s = none) :
    (extract_user_info env (Json.str s)).result =
        ⟨false, "Invalid user information format", none⟩
    ∧ (extract_user_info env (Json.str s)).posts = []
    ∧ (contact_support env (Json.str s)).result =
        ⟨false, "Invalid user information format", none⟩
    ∧ (contact_support env (Json.str s)).posts = []
    ∧ (∀ v : Json, json_loads env.parse v = LoadsOutcome.typeError →
        (extract_user_info env v).result.success = false
        ∧ (extract_user_info env v).posts = []
        ∧ (contact_support env v).result.success = false
        ∧ (contact_support env v).posts = [])
    ∧ (∀ s2 j, env.parse s2 = some j → j.setField "email" (Json.ofOptStr env.emailRecipient) = none →
        (contact_support env (Json.str s2)).result.success = false
        ∧ (contact_support env (Json.str s2)).posts = []) := by
  refine ⟨?_, ?_, ?_, ?_, ?_, ?_⟩
  · simp [extract_user_info, json_loads, h]
  · simp [extract_user_info, json_loads, h]
  · simp [contact_support, json_loads, h]
  · simp [contact_support, json_loads, h]
  · intro v hv
    refine ⟨?_, ?_, ?_, ?_⟩ <;> simp [extract_user_info, contact_support, hv]
  · intro s2 j hp hset
    constructor <;> simp [contact_support, json_loads, hp, hset]

/-- C4 witness: the concrete string oops is not JSON under the concrete
parse function, and both handlers return the failure mapping with no
POST. -/
theorem c4_invalid_json_handlers_witness :
    (extract_user_info egToolEnv (Json.str "oops")).result =
        ⟨false, "Invalid user information format", none⟩
    ∧ (contact_support egToolEnv (Json.str "oops")).posts = [] :=
  ⟨(c4_invalid_json_handlers egToolEnv "oops" rfl).1,
   (c4_invalid_json_handlers egToolEnv "oops" rfl).2.2.2.1⟩

/-- C7: for every payload string parsing to a JSON object,
contact_support overwrites the email field with the configured support
email, POSTs the resulting object to the configured support webhook, and
returns the fixed confirmation with success true; the env (and in it the
POST-failure oracle) is arbitrary, so the result is independent of the
webhook outcome. -/
theorem c7_contact_support_valid_object (env : ToolEnv) (s : String)
    (fs : List (String × Json)) (url em : String)
    (hp : env.parse s = some (Json.obj fs))
    (hw : env.noleadWebhook = some url) (hu : ¬ url.isEmpty)
    (he : env.emailRecipient = some em) :
    (contact_support env (Json.str s)).result =
      ⟨true, "Your request has been forwarded to our support team. They will contact you shortly.", none⟩
    ∧ (contact_support env (Json.str s)).posts =
        [(url, Json.obj (setFieldList fs "email" (Json.str em)))]
    ∧ (Json.obj (setFieldList fs "email" (Json.str em))).lookupField "email" =
        some (Json.str em) := by
  refine ⟨?_, ?_, ?_⟩
  · simp [contact_support, json_loads, hp, Json.setField]
  · simp [contact_support, json_loads, hp, Json.setField, hw, hu, he, Json.ofOptStr]
  · simp [Json.lookupField, lookup_setFieldList]

/-- C7 witness: the concrete payload object gets its email field
overwritten and is POSTed to the support webhook. -/
theorem c7_contact_support_valid_object_witness :
    (contact_support egToolEnv (Json.str "payload")).result =
      ⟨true, "Your request has been forwarded to our support team. They will contact you shortly.", none⟩
    ∧ (contact_support egToolEnv (Json.str "payload")).posts =
        [("support-url",
          Json.obj (setFieldList [("name", Json.str "n"), ("email", Json.str "old")]
            "email" (Json.str "support-email")))] :=
  ⟨(c7_contact_support_valid_object egToolEnv "payload"
      [("name", Json.str "n"), ("email", Json.str "old")] "support-url" "support-email"
      rfl rfl (by decide) rfl).1,
   (c7_contact_support_valid_object egToolEnv "payload"
      [("name", Json.str "n"), ("email", Json.str "old")] "support-url" "support-email"
      rfl rfl (by decide) rfl).2.1⟩

/-- C10: for every payload string parsing as JSON, extract_user_info
returns success true with the parsed value under data, the same result
for every environment (so in particular whether the lead webhook is
unconfigured or the POST raises); no POST is attempted when the webhook
is unconfigured, and the POST carries exactly the parsed value when it
is. -/
theorem c10_extract_user_info_webhook_independent (env : ToolEnv) (s : String)
    (j : Json) (hp : env.parse s = some j) :
    (extract_user_info env (Json.str s)).result =
      ⟨true, "User information extracted and processed successfully", some j⟩
    ∧ (env.leadWebhook = none → (extract_user_info env (Json.str s)).posts = [])
    ∧ (∀ url, env.leadWebhook = some url → ¬ url.isEmpty →
        (extract_user_info env (Json.str s)).posts = [(url, j)]) := by
  refine ⟨?_, ?_, ?_⟩
  · simp [extract_user_info, json_loads, hp]
  · intro hw
    simp [extract_user_info, json_loads, hp, hw]
  · intro url hw hu
    simp [extract_user_info, json_loads, hp, hw, hu]

/-- C10 witness: the concrete payload parses, the result carries it under
data, and the POST to the configured lead webhook carries exactly it,
even though the concrete POST oracle always raises. -/
theorem c10_extract_user_info_webhook_independent_witness :
    (extract_user_info egToolEnv (Json.str "payload")).result =
      ⟨true, "User information extracted and processed successfully",
        some (Json.obj [("name", Json.str "n"), ("email", Json.str "old")])⟩
    ∧ (extract_user_info egToolEnv (Json.str "payload")).posts =
        [("lead-url", Json.obj [("name", Json.str "n"), ("email", Json.str "old")])] :=
  ⟨(c10_extract_user_info_webhook_independent egToolEnv "payload"
      (Json.obj [("name", Json.str "n"), ("email", Json.str "old")]) rfl).1,
   (c10_extract_user_info_webhook_independent egToolEnv "payload"
      (Json.obj [("name", Json.str "n"), ("email", Json.str "old")]) rfl).2.2
     "lead-url" rfl (by decide)⟩

/-- C1: for a requires_action run with pending tool calls tcs, the batch
built and submitted before the next poll has exactly one output per
pending call, in order, each carrying that call id; the output is the
registered handler result when the name is registered and the arguments
parse and bind, and an error payload on parse or bind failure or an
unregistered name; the loop iteration submits exactly this batch once and
then sleeps before polling again. -/
theorem c1_requires_action_one_output_per_call (env : ToolEnv) (tcs : List ToolCall) :
    (requiresActionOutputs env tcs).length = tcs.length
    ∧ (requiresActionOutputs env tcs).map ToolOutput.tool_call_id = tcs.map ToolCall.id
    ∧ (∀ tc : ToolCall,
        (FUNCTIONS tc.function_name = none →
          processToolCall env tc =
            [⟨tc.id, Json.obj [("error", Json.str "Function not found")]⟩])
        ∧ (∀ f, FUNCTIONS tc.function_name = some f →
            (env.parse tc.arguments = none →
              processToolCall env tc =
                [⟨tc.id, Json.obj [("error", Json.str "Invalid function arguments")]⟩])
            ∧ (∀ j, env.parse tc.arguments = some j → bindUserInfo j = none →
                processToolCall env tc =
                  [⟨tc.id, Json.obj [("error", Json.str "Invalid function arguments")]⟩])
            ∧ (∀ j v, env.parse tc.arguments = some j → bindUserInfo j = some v →
                processToolCall env tc =
                  [⟨tc.id, ToolResult.toJson (f env v).result⟩])))
    ∧ (∀ obs : RunObs, obs.status = RunStatus.requires_action →
        obs.toolCalls = tcs → tcs ≠ [] →
        runIterEvents env obs =
          [LoopEvent.submit (requiresActionOutputs env tcs), LoopEvent.sleep 1]) := by
  refine ⟨requiresActionOutputs_length env tcs, requiresActionOutputs_ids env tcs, ?_, ?_⟩
  · intro tc
    refine ⟨?_, ?_⟩
    · intro hf
      simp [processToolCall, hf]
    · intro f hf
      refine ⟨?_, ?_, ?_⟩
      · intro hp
        simp [processToolCall, hf, hp]
      · intro j hp hb
        simp [processToolCall, hf, hp, hb]
      · intro j v hp hb
        simp [processToolCall, hf, hp, hb, toJson_truthy]
  · intro obs hst htc hne
    have hlen : (requiresActionOutputs env tcs).length = tcs.length :=
      requiresActionOutputs_length env tcs
    have houts : ¬ (requiresActionOutputs env tcs).isEmpty := by
      cases h : requiresActionOutputs env tcs with
      | nil =>
          rw [h] at hlen
          exact absurd (List.length_eq_zero.mp hlen.symm) hne
      | cons a l => simp
    simp [runIterEvents, hst, htc, houts]

/-- C1 witness: a batch of one registered call and one unknown call gets
exactly two outputs, ids preserved in order. -/
theorem c1_requires_action_one_output_per_call_witness :
    (requiresActionOutputs egToolEnv
        [⟨"call1", "extract_user_info", "args"⟩, ⟨"call2", "nosuch", "args"⟩]).length = 2
    ∧ (requiresActionOutputs egToolEnv
        [⟨"call1", "extract_user_info", "args"⟩, ⟨"call2", "nosuch", "args"⟩]).map
          ToolOutput.tool_call_id = ["call1", "call2"] :=
  ⟨(c1_requires_action_one_output_per_call egToolEnv
      [⟨"call1", "extract_user_info", "args"⟩, ⟨"call2", "nosuch", "args"⟩]).1,
   (c1_requires_action_one_output_per_call egToolEnv
      [⟨"call1", "extract_user_info", "args"⟩, ⟨"call2", "nosuch", "args"⟩]).2.1⟩

lemma chatLoop_some_terminal (env : ToolEnv) (poll : Nat → RunObs) :
    ∀ fuel i st evs, chatLoop fuel env poll i = (some st, evs) →
      isTerminal st = true := by
  intro fuel
  induction fuel with
  | zero => intro i st evs h; simp [chatLoop] at h
  | succ n ih =>
      intro i st evs h
      by_cases ht : isTerminal (poll i).status
      · rw [chatLoop, if_pos ht] at h
        cases h
        exact ht
      · rw [chatLoop, if_neg ht] at h
        have h1 : (chatLoop n env poll (i + 1)).1 = some st := by
          simpa using congrArg Prod.fst h
        exact ih (i + 1) st (chatLoop n env poll (i + 1)).2 (by rw [← h1])

lemma chatLoop_no_terminal_none (env : ToolEnv) (poll : Nat → RunObs)
    (h : ∀ n, isTerminal (poll n).status = false) :
    ∀ fuel i, (chatLoop fuel env poll i).1 = none := by
  intro fuel
  induction fuel with
  | zero => intro i; rfl
  | succ n ih =>
      intro i
      rw [chatLoop, if_neg (by simp [h i])]
      exact ih (i + 1)

lemma chatLoop_iter_ends_sleep (env : ToolEnv) (poll : Nat → RunObs) :
    ∀ fuel i iter, iter ∈ (chatLoop fuel env poll i).2 →
      iter.getLast? = some (LoopEvent.sleep 1) := by
  intro fuel
  induction fuel with
  | zero => intro i iter h; simp [chatLoop] at h
  | succ n ih =>
      intro i iter h
      by_cases ht : isTerminal (poll i).status
      · rw [chatLoop, if_pos ht] at h
        simp at h
      · rw [chatLoop, if_neg ht] at h
        simp at h
        rcases h with h | h
        · rw [h, runIterEvents, List.getLast?_append_cons]
          rfl
        · exact ih (i + 1) iter h

/-- C3: the polling loop exits only on a terminal status (completed,
failed, or expired); when no polled status is ever terminal the loop
never finishes for any amount of fuel; and every completed non-terminal
iteration ends with the fixed one-unit sleep. -/
theorem c3_loop_terminates_only_on_terminal (env : ToolEnv)
    (poll : Nat → RunObs) (i : Nat) :
    (∀ fuel st evs, chatLoop fuel env poll i = (some st, evs) →
        st = RunStatus.completed ∨ st = RunStatus.failed ∨ st = RunStatus.expired)
    ∧ ((∀ n, isTerminal (poll n).status = false) →
        ∀ fuel, (chatLoop fuel env poll i).1 = none)
    ∧ (∀ fuel iter, iter ∈ (chatLoop fuel env poll i).2 →
        iter.getLast? = some (LoopEvent.sleep 1)) := by
  refine ⟨?_, ?_, ?_⟩
  · intro fuel st evs h
    have := chatLoop_some_terminal env poll fuel i st evs h
    cases st <;> simp_all [isTerminal]
  · intro h fuel
    exact chatLoop_no_terminal_none env poll h fuel i
  · intro fuel iter h
    exact chatLoop_iter_ends_sleep env poll fuel i iter h

/-- C3 witness: under a poll oracle stuck on in_progress, the loop result
stays none at fuel 5, and the first iteration trace ends with the unit
sleep. -/
theorem c3_loop_terminates_only_on_terminal_witness :
    (chatLoop 5 egToolEnv (fun _ => ⟨RunStatus.in_progress, []⟩) 0).1 = none
    ∧ ([LoopEvent.sleep 1] : List LoopEvent).getLast? = some (LoopEvent.sleep 1) :=
  ⟨(c3_loop_terminates_only_on_terminal egToolEnv
      (fun _ => ⟨RunStatus.in_progress, []⟩) 0).2.1 (fun _ => rfl) 5,
   (c3_loop_terminates_only_on_terminal egToolEnv
      (fun _ => ⟨RunStatus.in_progress, []⟩) 0).2.2 5 [LoopEvent.sleep 1]
     (by rw [show (chatLoop 5 egToolEnv (fun _ => ⟨RunStatus.in_progress, []⟩) 0).2 =
            List.replicate 5 [LoopEvent.sleep 1] from rfl]; simp)⟩

/-- Example chat environment for the witnesses. -/
def egChatEnv : ChatEnv where
  tool := egToolEnv
  newThreadId := "t-new"
  poll := fun _ => ⟨RunStatus.completed, []⟩
  finalMessages := [⟨"assistant", ["hi"]⟩]

/-- C2: a schema-valid /chat body without a thread_id gets HTTP 400 with
the fixed error body for every message, and the only hosted-API effect is
the creation of a new thread, whose id is absent from the response (the
body is a constant independent of the id). -/
theorem c2_missing_thread_id_400 (env : ChatEnv) (fuel : Nat) (req : ChatRequest)
    (h : req.thread_id = none) :
    (chat env fuel req).response =
      some ⟨Json.obj [("error", Json.str "Missing thread_id")], 400⟩
    ∧ (chat env fuel req).effects = [ApiEffect.createThread env.newThreadId] := by
  constructor <;> simp [chat, strOptFalsy, h]

/-- C2 witness: a concrete request without thread_id. -/
theorem c2_missing_thread_id_400_witness :
    (chat egChatEnv 3 ⟨none, "hello"⟩).response =
      some ⟨Json.obj [("error", Json.str "Missing thread_id")], 400⟩
    ∧ (chat egChatEnv 3 ⟨none, "hello"⟩).effects = [ApiEffect.createThread "t-new"] :=
  ⟨(c2_missing_thread_id_400 egChatEnv 3 ⟨none, "hello"⟩ rfl).1,
   (c2_missing_thread_id_400 egChatEnv 3 ⟨none, "hello"⟩ rfl).2⟩

lemma filterMap_render_of_content (l : List Message)
    (h : ∀ m ∈ l, m.content ≠ []) :
    l.filterMap renderMessage =
      l.map (fun m => upperStr m.role ++ ": " ++ m.content.headD "") := by
  induction l with
  | nil => rfl
  | cons m rest ih =>
      have hm := h m (List.mem_cons_self m rest)
      cases hc : m.content with
      | nil => exact absurd hc hm
      | cons c cs =>
          simp [renderMessage, hc,
            ih (fun x hx => h x (List.mem_cons_of_mem m hx))]

/-- C5: with a non-blank id and messages fetched newest first, a thread
with zero messages yields the fixed literal, and a non-empty thread whose
messages each have a content part yields the oldest-first lines
ROLE: text joined by newlines. -/
theorem c5_get_conversation_format (fetch : String → Except String (List Message))
    (tid : String) (msgs : List Message)
    (ht : ¬ tid.isEmpty) (hf : fetch tid = .ok msgs) :
    (msgs = [] → get_conversation fetch tid = "No messages found in conversation")
    ∧ (msgs ≠ [] → (∀ m ∈ msgs, m.content ≠ []) →
        get_conversation fetch tid =
          String.intercalate "\n"
            (msgs.reverse.map (fun m => upperStr m.role ++ ": " ++ m.content.headD ""))) := by
  constructor
  · intro h0
    simp [get_conversation, ht, hf, h0]
  · intro hne hcontent
    have hrev : ∀ m ∈ msgs.reverse, m.content ≠ [] := fun m hm =>
      hcontent m (List.mem_reverse.mp hm)
    simp [get_conversation, ht, hf, hne,
      filterMap_render_of_content msgs.reverse hrev]

/-- Example message-fetch oracle for the witnesses. -/
def egFetch : String → Except String (List Message) := fun t =>
  if t = "t1" then .ok [⟨"assistant", ["hi"]⟩, ⟨"user", ["hello"]⟩]
  else .error "boom"

/-- C5 witness: a two-message thread, fetched newest first, renders
oldest first with upper-cased roles. -/
theorem c5_get_conversation_format_witness :
    get_conversation egFetch "t1" = "USER: hello\nASSISTANT: hi" :=
  ((c5_get_conversation_format egFetch "t1"
      [⟨"assistant", ["hi"]⟩, ⟨"user", ["hello"]⟩] (by decide) rfl).2
    (by simp) (by simp)).trans rfl

/-- C9: when the message fetch raises, get_conversation returns the
error text prefixed with the fixed prefix instead of raising, and the
endpoint still responds 200 with that text in the conversation field. -/
theorem c9_get_conversation_catches (fetch : String → Except String (List Message))
    (tid e : String) (ht : ¬ (stripStr tid).isEmpty) (hf : fetch tid = .error e) :
    get_conversation fetch tid = "Error retrieving conversation: " ++ e
    ∧ retrieve_conversation fetch tid =
        ⟨Json.obj [("conversation",
            Json.str ("Error retrieving conversation: " ++ e))], 200⟩ := by
  have hne : ¬ tid.isEmpty := by
    intro h0
    rw [String.isEmpty_iff] at h0
    rw [h0] at ht
    exact ht (by decide)
  constructor
  · simp [get_conversation, hne, hf]
  · simp [retrieve_conversation, hne, ht, get_conversation, hf]

/-- C9 witness: a fetch that raises boom yields a 200 envelope carrying
the error text. -/
theorem c9_get_conversation_catches_witness :
    get_conversation egFetch "t9" = "Error retrieving conversation: boom"
    ∧ retrieve_conversation egFetch "t9" =
        ⟨Json.obj [("conversation",
            Json.str ("Error retrieving conversation: " ++ "boom"))], 200⟩ :=
  ⟨((c9_get_conversation_catches egFetch "t9" "boom" (by decide) rfl).1).trans rfl,
   (c9_get_conversation_catches egFetch "t9" "boom" (by decide) rfl).2⟩

/-- C6: a missing, unreadable, undecodable or whitespace-only
instructions source yields the fixed fallback string, and the loader is
total (never raises). -/
theorem c6_instructions_fallback (fs : String → FsFile) (path : String)
    (h : fs path = FsFile.missing ∨ fs path = FsFile.unreadable
      ∨ fs path = FsFile.pdfFile none ∨ fs path = FsFile.textFile none
      ∨ (∃ raw, fs path = FsFile.pdfFile (some raw) ∧ (stripStr raw).isEmpty)
      ∨ (∃ raw, fs path = FsFile.textFile (some raw) ∧ (stripStr raw).isEmpty)) :
    load_instructions_from_file fs path = defaultInstructions := by
  rcases h with h | h | h | h | ⟨raw, h, hr⟩ | ⟨raw, h, hr⟩
  · simp [load_instructions_from_file, h]
  · simp [load_instructions_from_file, h]
  · simp [load_instructions_from_file, h]
  · simp [load_instructions_from_file, h]
  · simp [load_instructions_from_file, h, hr]
  · simp [load_instructions_from_file, h, hr]

/-- Example filesystem for the witnesses. -/
def egFs : String → FsFile := fun p =>
  if p = "missing-path" then FsFile.missing
  else FsFile.textFile (some "   ")

/-- C6 witness: a missing path and a whitespace-only text file both fall
back to the default instructions. -/
theorem c6_instructions_fallback_witness :
    load_instructions_from_file egFs "missing-path" = defaultInstructions :=
  c6_instructions_fallback egFs "missing-path" (Or.inl rfl)

/-- Example assistant CRUD oracle for the witnesses: retrieval of the
supplied id fails, creation succeeds. -/
def egAsstEnv : AsstEnv where
  retrieve := fun _ => .error "gone"
  update := fun _ _ => .ok "updated-id"
  create := fun _ => .ok "new-id"

/-- C8: with a truthy supplied assistant id, any failure on the
retrieve or update path makes the provisioner create a new assistant and
return its id, never surfacing the update error; a failure of the create
call itself is the exception propagated to the caller. -/
theorem c8_provisioner_fallback (env : AsstEnv) (aid : String)
    (cfg : AssistantConfig) (ha : ¬ aid.isEmpty)
    (hfail : (∃ e, env.retrieve aid = .error e)
      ∨ ((∃ u, env.retrieve aid = .ok u)
          ∧ ∃ e, env.update aid cfg = .error e)) :
    (∀ nid, env.create cfg = .ok nid →
        create_or_update_assistant env (some aid) cfg = Except.ok nid)
    ∧ (∀ ce, env.create cfg = .error ce →
        create_or_update_assistant env (some aid) cfg = Except.error ce) := by
  have hupd : (match env.retrieve aid with
      | .error _ => (none : Option String)
      | .ok _ =>
          match env.update aid cfg with
          | .error _ => none
          | .ok uid => some uid) = none := by
    rcases hfail with ⟨e, he⟩ | ⟨⟨u, hr⟩, e, he⟩
    · rw [he]
    · rw [hr, he]
  constructor <;> intro x hx <;>
    simp [create_or_update_assistant, ha, hupd, hx]

/-- C8 witness: a stale id whose retrieval fails falls back to creation
and returns the freshly created id. -/
theorem c8_provisioner_fallback_witness :
    create_or_update_assistant egAsstEnv (some "old-id") ⟨"inst", "gpt"⟩ =
      Except.ok "new-id" :=
  (c8_provisioner_fallback egAsstEnv "old-id" ⟨"inst", "gpt"⟩ (by decide)
      (Or.inl ⟨"gone", rfl⟩)).1 "new-id" rfl
